import Mathlib

/-!
Verification of the tat-songs crawl-and-materialize pipeline.

Shallow embedding of `download_songs.py` and `batch_process.py`:
pure functions are translated directly; the SQLite record store becomes a
`List Song`; network fetches, file writes and randomness become explicit
parameters (an outcome function per attempt, a write-success flag, an
abstract shuffle).
-/

set_option maxRecDepth 10000

namespace TatSongs

/- ## Character-level helpers for the naming pipeline
   (`transliterate_tatar_to_latin` and `sanitize_filename` in
   download_songs.py) -/

/-- The Cyrillic→Latin mapping table of `transliterate_tatar_to_latin`
(download_songs.py lines 70–83); a character outside the table maps to
itself. -/
def tatarChar (c : Char) : String :=
  match c with
  | 'А' => "A" | 'Б' => "B" | 'В' => "V" | 'Г' => "G" | 'Д' => "D"
  | 'Е' => "E" | 'Ё' => "Yo" | 'Ж' => "Zh" | 'Җ' => "C" | 'З' => "Z"
  | 'И' => "I" | 'Й' => "Y" | 'К' => "K" | 'Л' => "L" | 'М' => "M"
  | 'Н' => "N" | 'Ң' => "N" | 'О' => "O" | 'Ө' => "O" | 'П' => "P"
  | 'Р' => "R" | 'С' => "S" | 'Т' => "T" | 'У' => "U" | 'Ү' => "U"
  | 'Ф' => "F" | 'Х' => "H" | 'Һ' => "H" | 'Ц' => "Ts" | 'Ч' => "Ch"
  | 'Ш' => "Sh" | 'Щ' => "Shch" | 'Ъ' => "" | 'Ы' => "I" | 'Ә' => "A"
  | 'Ь' => "" | 'Э' => "E" | 'Ю' => "Yu" | 'Я' => "Ya"
  | 'а' => "a" | 'б' => "b" | 'в' => "v" | 'г' => "g" | 'д' => "d"
  | 'е' => "e" | 'ё' => "yo" | 'ж' => "zh" | 'җ' => "c" | 'з' => "z"
  | 'и' => "i" | 'й' => "y" | 'к' => "k" | 'л' => "l" | 'м' => "m"
  | 'н' => "n" | 'ң' => "n" | 'о' => "o" | 'ө' => "o" | 'п' => "p"
  | 'р' => "r" | 'с' => "s" | 'т' => "t" | 'у' => "u" | 'ү' => "u"
  | 'ф' => "f" | 'х' => "h" | 'һ' => "h" | 'ц' => "ts" | 'ч' => "ch"
  | 'ш' => "sh" | 'щ' => "shch" | 'ъ' => "" | 'ы' => "i" | 'ә' => "a"
  | 'ь' => "" | 'э' => "e" | 'ю' => "yu" | 'я' => "ya"
  | c => String.singleton c

/-- Python `str.lower`, restricted to the alphabets this program handles
(ASCII and the Cyrillic block, including the Tatar-specific letters). -/
def pyLower (c : Char) : Char :=
  if 65 ≤ c.toNat ∧ c.toNat ≤ 90 then Char.ofNat (c.toNat + 32)
  else if 0x410 ≤ c.toNat ∧ c.toNat ≤ 0x42F then Char.ofNat (c.toNat + 32)
  else if c = 'Ё' then 'ё'
  else if c = 'Җ' then 'җ'
  else if c = 'Ң' then 'ң'
  else if c = 'Ө' then 'ө'
  else if c = 'Ү' then 'ү'
  else if c = 'Һ' then 'һ'
  else if c = 'Ә' then 'ә'
  else c

/-- Python regex `\w` (a word character: letter, digit or underscore),
modelled over the ASCII and Cyrillic ranges this program processes. -/
def isWordChar (c : Char) : Bool :=
  c.isAlphanum || c = '_' || (decide (0x400 ≤ c.toNat) && decide (c.toNat ≤ 0x4FF))

/-- Python regex `re.sub(r's+', '_', text)` with a whitespace class:
collapse each maximal whitespace run to a single underscore.  The Boolean
argument records whether the previous character was whitespace. -/
def collapseWsAux : Bool → List Char → List Char
  | _, [] => []
  | prevWs, c :: cs =>
    if c.isWhitespace then
      if prevWs then collapseWsAux true cs
      else '_' :: collapseWsAux true cs
    else c :: collapseWsAux false cs

/-- `transliterate_tatar_to_latin` (download_songs.py lines 68–94):
map each character through the table, lowercase, delete every character
that is not a word character, whitespace or hyphen, then collapse
whitespace runs to single underscores. -/
def transliterate_tatar_to_latin (text : String) : String :=
  let mapped := String.join (text.data.map tatarChar)
  let lowered := mapped.data.map pyLower
  let kept := lowered.filter (fun c => isWordChar c || c.isWhitespace || c = '-')
  (collapseWsAux false kept).asString

/-- A character stripped from both ends by Python `str.strip('_ ')`. -/
def isStripChar (c : Char) : Bool := c = '_' || c = ' '

/-- `sanitize_filename` (download_songs.py lines 97–105): delete the
characters unsafe for filenames, collapse whitespace runs to single
underscores, strip leading/trailing underscores and spaces. -/
def sanitize_filename (filename : String) : String :=
  let kept := filename.data.filter (fun c =>
    !(c = '<' || c = '>' || c = ':' || c = '"' || c = '/' || c = '\\' ||
      c = '|' || c = '?' || c = '*'))
  let collapsed := collapseWsAux false kept
  (((collapsed.dropWhile isStripChar).reverse.dropWhile isStripChar).reverse).asString

/- ## Extraction result and the namer -/

/-- The dictionary returned by `extract_lyrics_from_song_page`
(download_songs.py lines 214–220). -/
structure SongData where
  title : String
  songwriter : String
  musician : String
  lyrics : String
  url : String
deriving DecidableEq, Repr

/-- `generate_filename` (download_songs.py lines 249–266): songwriter
first, musician second when both are non-empty, else whichever is
present; prepend the label to the title with a hyphen; transliterate,
sanitize and append the `.md` extension. -/
def generate_filename (d : SongData) : String :=
  let artist_name :=
    if d.songwriter ≠ "" ∧ d.musician ≠ "" then d.songwriter ++ " " ++ d.musician
    else if d.songwriter ≠ "" then d.songwriter
    else if d.musician ≠ "" then d.musician
    else ""
  let filename_base :=
    if artist_name ≠ "" then artist_name ++ " - " ++ d.title
    else d.title
  sanitize_filename (transliterate_tatar_to_latin filename_base) ++ ".md"

/-- `format_lyrics_markdown` (download_songs.py lines 223–246): the
markdown artifact, a fixed header plus a fenced lyrics block; the
attribution line is `songwriter / musician` when both are present. -/
def format_lyrics_markdown (d : SongData) : String :=
  let artist_name :=
    if d.songwriter ≠ "" ∧ d.musician ≠ "" then d.songwriter ++ " / " ++ d.musician
    else if d.songwriter ≠ "" then d.songwriter
    else if d.musician ≠ "" then d.musician
    else ""
  let header :=
    if artist_name ≠ "" then
      "# Оригинал\n\n" ++ "### " ++ artist_name ++ " - " ++ d.title ++ "\n"
    else
      "# Оригинал\n\n" ++ "### " ++ d.title ++ "\n"
  header ++ "\n```\n" ++ d.lyrics.trim ++ "\n```\n"

/- ## Record store (the `songs` SQLite table, download_songs.py lines 36–60) -/

/-- The `status` column: `pending` (default) / `processed` / `failed`. -/
inductive Status where
  | pending
  | processed
  | failed
deriving DecidableEq, Repr

/-- One row of the `songs` table. `processed_at`, `lyrics` and `filename`
start out NULL (`none`); timestamps are abstract naturals. -/
structure Song where
  id : Nat
  url : String
  title : String
  musician : String
  songwriter : String
  status : Status
  created_at : Nat
  processed_at : Option Nat
  lyrics : Option String
  filename : Option String
deriving DecidableEq, Repr

/-- One entry scraped from a listing page by `extract_songs_from_page`
(download_songs.py lines 161–166). -/
structure ListingEntry where
  url : String
  title : String
  musician : String
  songwriter : String
deriving DecidableEq, Repr

/-- The fresh row inserted for a newly discovered entry: status defaults
to `pending`, the remaining columns to NULL. -/
def mkSong (e : ListingEntry) (id now : Nat) : Song :=
  { id := id, url := e.url, title := e.title, musician := e.musician,
    songwriter := e.songwriter, status := Status.pending, created_at := now,
    processed_at := none, lyrics := none, filename := none }

/-- Whether some row of the store already carries this URL (the UNIQUE
constraint on the `url` column). -/
def containsUrl (db : List Song) (u : String) : Bool :=
  db.any (fun s => s.url == u)

/-- `INSERT OR IGNORE INTO songs (url, title, musician, songwriter)`
(download_songs.py lines 301–304): a row whose URL is already present is
left untouched, otherwise a fresh pending row is appended. -/
def insert_or_ignore (db : List Song) (e : ListingEntry) (now : Nat) : List Song :=
  if containsUrl db e.url then db
  else db ++ [mkSong e (db.length + 1) now]

/-- The discovery upsert: the per-page insertion loop of
`collect_all_songs` (download_songs.py lines 300–304) over one listing. -/
def upsert_discovered (db : List Song) (es : List ListingEntry) (now : Nat) : List Song :=
  es.foldl (fun acc e => insert_or_ignore acc e now) db

/- ## Processor (process_songs, download_songs.py lines 317–409) -/

/-- `UPDATE songs SET status = "failed" WHERE id = ?` — every failure
path of `process_songs` (lines 359, 368, 398) runs exactly this update. -/
def markFailed (r : Song) : Song :=
  { r with status := Status.failed }

/-- `UPDATE songs SET status = "processed", processed_at =
CURRENT_TIMESTAMP, lyrics = ?, filename = ? WHERE id = ?`
(download_songs.py lines 385–392). -/
def markProcessed (r : Song) (lyr fn : String) (now : Nat) : Song :=
  { r with status := Status.processed, processed_at := some now,
           lyrics := some lyr, filename := some fn }

/-- The body of the per-record loop of `process_songs` (lines 356–399),
with I/O made explicit: `fetched` is `none` when `get_page_content`
returned no usable content (`if not song_content`), otherwise the data
`extract_lyrics_from_song_page` produced; `writeOk` tells whether the
artifact write raised.  Empty lyrics are a failure; otherwise the
filename is generated from the page data and on a successful write the
row is marked processed with lyrics and filename. -/
def process_one (r : Song) (fetched : Option SongData) (writeOk : Bool) (now : Nat) : Song :=
  match fetched with
  | none => markFailed r
  | some d =>
    if d.lyrics = "" then markFailed r
    else if writeOk then markProcessed r d.lyrics (generate_filename d) now
    else markFailed r

/-- The pending-record selection at the top of `process_songs`
(download_songs.py lines 322–330): in test mode, 100 random pending rows
(`ORDER BY RANDOM() LIMIT 100`, modelled by an abstract `shuffle`)
regardless of `limit`; otherwise the pending rows, capped by `limit`
when it is truthy (Python: `if limit:` — a limit of 0 means no cap). -/
def select_pending (db : List Song) (limit : Option Nat) (test_mode : Bool)
    (shuffle : List Song → List Song) : List Song :=
  let pending := db.filter (fun s => decide (s.status = Status.pending))
  if test_mode then (shuffle pending).take 100
  else
    match limit with
    | some l => if l ≠ 0 then pending.take l else pending
    | none => pending

/- ## Fetcher (get_page_content, download_songs.py lines 108–128) -/

/-- The retry loop of `get_page_content`: `attempt` is the index of the
next attempt, the final argument the number of attempts remaining
(initially `max_retries`).  `fetch i` is the outcome of attempt `i`
(`none` = a `RequestException`).  Returns the content obtained (or
`none` on exhaustion) paired with the number of attempts actually
made. -/
def fetch_attempts (fetch : Nat → Option String) (attempt : Nat) :
    Nat → Option String × Nat
  | 0 => (none, 0)
  | remaining + 1 =>
    match fetch attempt with
    | some s => (some s, 1)
    | none =>
      match remaining with
      | 0 => (none, 1)
      | r + 1 =>
        let rest := fetch_attempts fetch (attempt + 1) (r + 1)
        (rest.1, rest.2 + 1)

/-- `get_page_content(url, session, max_retries)` with the per-attempt
outcomes abstracted into `fetch`. -/
def get_page_content (fetch : Nat → Option String) (max_retries : Nat) :
    Option String × Nat :=
  fetch_attempts fetch 0 max_retries

/- ## Batch orchestrator (process_batch, batch_process.py lines 20–66) -/

/-- The outcome of one `subprocess.run` invocation of a batch: a zero
exit code, a non-zero exit code, or a `TimeoutExpired`. -/
inductive BatchOutcome where
  | success
  | failExit
  | timeout
deriving DecidableEq, Repr

/-- Why the orchestrator loop stopped (`fuelOut` marks only that the
modelling fuel ran out, not a stop of the Python loop). -/
inductive StopReason where
  | capReached
  | noPending
  | batchFailed
  | batchTimeout
  | fuelOut
deriving DecidableEq, Repr

/-- Python `if max_batches and batch_num >= max_batches` — the cap is
inactive when `max_batches` is `None` or `0` (falsy). -/
def capHit (mb : Option Nat) (k : Nat) : Bool :=
  match mb with
  | none => false
  | some m => decide (0 < m) && decide (m ≤ k)

/-- What a run of `process_batch` did: how many batches succeeded
(`batch_num`), how many were invoked at all, how many inter-batch
2-second sleeps happened, and why the loop stopped. -/
structure RunResult where
  successes : Nat
  invocations : Nat
  sleeps : Nat
  reason : StopReason
deriving DecidableEq, Repr

/-- The `while True` loop of `process_batch` (batch_process.py lines
25–62).  `env k` is the pending count `get_pending_count()` reads when
`batch_num = k` (only successes increment `batch_num`, and the loop
continues only after a success); `out k` is the outcome of the batch
invoked at `batch_num = k`.  `fuel` bounds the modelled iterations. -/
def process_batch (env : Nat → Nat) (out : Nat → BatchOutcome) (mb : Option Nat) :
    Nat → Nat → RunResult
  | 0, k => ⟨k, k, k, StopReason.fuelOut⟩
  | fuel + 1, k =>
    if capHit mb k then ⟨k, k, k, StopReason.capReached⟩
    else if env k = 0 then ⟨k, k, k, StopReason.noPending⟩
    else
      match out k with
      | BatchOutcome.success => process_batch env out mb fuel (k + 1)
      | BatchOutcome.failExit => ⟨k, k + 1, k, StopReason.batchFailed⟩
      | BatchOutcome.timeout => ⟨k, k + 1, k, StopReason.batchTimeout⟩

/-- What the spec's stop conditions say about a finished orchestrator
run started at `batch_num = k`: every batch invoked before the stop
succeeded against a non-empty pending set with the cap not yet hit; one
2-second sleep happened per successful batch; and the recorded stop
reason matches the state at the stop — cap hit, exhausted pending set,
or a failed/timed-out invocation that is not retried (it is the single
final invocation). -/
def BatchSpec (env : Nat → Nat) (out : Nat → BatchOutcome) (mb : Option Nat)
    (k : Nat) (R : RunResult) : Prop :=
  k ≤ R.successes ∧
  R.sleeps = R.successes ∧
  (∀ i, k ≤ i → i < R.successes →
    out i = BatchOutcome.success ∧ env i ≠ 0 ∧ capHit mb i = false) ∧
  (R.reason = StopReason.capReached →
    capHit mb R.successes = true ∧ R.invocations = R.successes) ∧
  (R.reason = StopReason.noPending →
    env R.successes = 0 ∧ R.invocations = R.successes) ∧
  (R.reason = StopReason.batchFailed →
    out R.successes = BatchOutcome.failExit ∧ env R.successes ≠ 0 ∧
      R.invocations = R.successes + 1) ∧
  (R.reason = StopReason.batchTimeout →
    out R.successes = BatchOutcome.timeout ∧ env R.successes ≠ 0 ∧
      R.invocations = R.successes + 1)

/- ## Spec-side definitions for refinement comparison -/

/-- Modelled from the spec's words, for comparison with
`generate_filename`: the namer as claimed, with the composer placed
before the lyricist in the both-present label. -/
def name_for_claimed (title composer lyricist : String) : String :=
  let label :=
    if composer ≠ "" ∧ lyricist ≠ "" then composer ++ " " ++ lyricist
    else if composer ≠ "" then composer
    else if lyricist ≠ "" then lyricist
    else ""
  let stem := if label ≠ "" then label ++ " - " ++ title else title
  sanitize_filename (transliterate_tatar_to_latin stem) ++ ".md"

/-- Modelled from the spec's words as amended, for comparison with
`generate_filename`: lyricist first, composer second in the both-present
label, else the single present attribution, else the title alone. -/
def name_for_amended (title composer lyricist : String) : String :=
  let label :=
    if lyricist ≠ "" ∧ composer ≠ "" then lyricist ++ " " ++ composer
    else if lyricist ≠ "" then lyricist
    else if composer ≠ "" then composer
    else ""
  let stem := if label ≠ "" then label ++ " - " ++ title else title
  sanitize_filename (transliterate_tatar_to_latin stem) ++ ".md"

/-- Modelled from the spec's words, for comparison with `process_one`:
processing-time metadata with a per-field fallback to the record's
discovery-time values where the processing-time field is empty. -/
def fallbackData (r : Song) (d : SongData) : SongData :=
  { d with
    title := if d.title = "" then r.title else d.title,
    musician := if d.musician = "" then r.musician else d.musician,
    songwriter := if d.songwriter = "" then r.songwriter else d.songwriter }

/- ## Theorems -/

/-- C1 (counterexample): a pending record whose fetch fails transitions
into `failed`, yet its `processed_at` field stays NULL — the completion
timestamp is not set on the transition into `failed`, contradicting the
claim that it is set on the transition into either terminal state. -/
theorem C1_cex :
    (mkSong ⟨"u", "T", "M", "S"⟩ 1 0).status = Status.pending ∧
    (process_one (mkSong ⟨"u", "T", "M", "S"⟩ 1 0) none true 5).status = Status.failed ∧
    (process_one (mkSong ⟨"u", "T", "M", "S"⟩ 1 0) none true 5).processed_at = none := by
  decide

/-- C1 (amended): `processed_at` is set exactly at the transition into
`processed` (to the processing timestamp); a transition into `failed`
leaves the field unchanged. -/
theorem C1_processed_at_only_on_processed
    (r : Song) (fetched : Option SongData) (writeOk : Bool) (now : Nat)
    (_hp : r.status = Status.pending) :
    ((process_one r fetched writeOk now).status = Status.processed →
      (process_one r fetched writeOk now).processed_at = some now) ∧
    ((process_one r fetched writeOk now).status = Status.failed →
      (process_one r fetched writeOk now).processed_at = r.processed_at) := by
  cases fetched with
  | none => simp [process_one, markFailed]
  | some d =>
    by_cases hl : d.lyrics = ""
    · simp [process_one, markFailed, hl]
    · cases writeOk with
      | true => simp [process_one, markProcessed, hl]
      | false => simp [process_one, markFailed, hl]

/-- C1 (witness for the amended theorem): a concrete pending record that
transitions into `processed` gets `processed_at = some 5`. -/
theorem C1_witness :
    (mkSong ⟨"u", "T", "M", "S"⟩ 1 0).status = Status.pending ∧
    (process_one (mkSong ⟨"u", "T", "M", "S"⟩ 1 0) (some ⟨"T", "S", "M", "la", "u"⟩) true 5).processed_at =
        some 5 :=
  ⟨by decide,
   (C1_processed_at_only_on_processed (mkSong ⟨"u", "T", "M", "S"⟩ 1 0)
     (some ⟨"T", "S", "M", "la", "u"⟩) true 5 (by decide)).1 (by decide)⟩

/-- C2 (counterexample): with songwriter (lyricist) "ab", musician
(composer) "cd" and title "ef", the generated name is "ab_cd_-_ef.md" —
the lyricist comes first — and not the composer-first name the claim
prescribes. -/
theorem C2_cex :
    generate_filename ⟨"ef", "ab", "cd", "x", ""⟩ = "ab_cd_-_ef.md" ∧
    generate_filename ⟨"ef", "ab", "cd", "x", ""⟩ ≠ name_for_claimed "ef" "cd" "ab" := by
  decide

/-- C2 (amended): the namer builds the label with the lyricist
(songwriter) first and the composer (musician) second when both are
non-empty; with exactly one attribution non-empty the label is that one
alone, and with both empty the stem is the title alone. -/
theorem C2_label_order (d : SongData) :
    generate_filename d = name_for_amended d.title d.musician d.songwriter := by
  rfl

/-- C3 (counterexample): a record discovered with title "X", musician
"M", songwriter "S" whose item page yields empty metadata and non-empty
lyrics is stored with the filename generated from the empty
processing-time fields (".md"), not with the name the claimed
discovery-time fallback would give. -/
theorem C3_cex :
    (process_one (mkSong ⟨"u", "X", "M", "S"⟩ 1 0) (some ⟨"", "", "", "la", "u"⟩) true 7).filename =
        some ".md" ∧
    (process_one (mkSong ⟨"u", "X", "M", "S"⟩ 1 0) (some ⟨"", "", "", "la", "u"⟩) true 7).filename ≠
        some (generate_filename (fallbackData (mkSong ⟨"u", "X", "M", "S"⟩ 1 0) ⟨"", "", "", "la", "u"⟩)) := by
  decide

/-- C3 (amended): the Processor computes the artifact name from the
processing-time metadata alone — empty fields are used as-is, with no
fallback to the discovery-time values stored in the record. -/
theorem C3_name_from_processing_metadata
    (r : Song) (d : SongData) (writeOk : Bool) (now : Nat)
    (hl : d.lyrics ≠ "") (hw : writeOk = true) :
    (process_one r (some d) writeOk now).filename = some (generate_filename d) := by
  subst hw
  simp [process_one, markProcessed, hl]

/-- C3 (witness for the amended theorem). -/
theorem C3_witness :
    (process_one (mkSong ⟨"u", "X", "M", "S"⟩ 1 0) (some ⟨"", "", "", "la", "u"⟩) true 7).filename =
      some (generate_filename ⟨"", "", "", "la", "u"⟩) :=
  C3_name_from_processing_metadata (mkSong ⟨"u", "X", "M", "S"⟩ 1 0)
    ⟨"", "", "", "la", "u"⟩ true 7 (by decide) rfl

/-- C4: against an endpoint failing on every attempt, the fetcher with a
retry bound of 3 makes exactly 3 attempts, terminates, and returns the
failure value `none` to its caller. -/
theorem C4_retry_bound (fetch : Nat → Option String)
    (hfail : ∀ i, fetch i = none) :
    get_page_content fetch 3 = (none, 3) := by
  simp [get_page_content, fetch_attempts, hfail]

/-- C4 (witness). -/
theorem C4_witness : get_page_content (fun _ => none) 3 = (none, 3) :=
  C4_retry_bound (fun _ => none) (fun _ => rfl)

/-- C6: the artifact namer is a pure function — identical inputs always
produce the identical output string. -/
theorem C6_namer_deterministic (d1 d2 : SongData) (h : d1 = d2) :
    generate_filename d1 = generate_filename d2 :=
  congrArg generate_filename h

/-- C6 (witness, at the spec's concrete input: title "Әлфия", composer
"Композитор А", empty lyricist). -/
theorem C6_witness :
    generate_filename ⟨"Әлфия", "", "Композитор А", "", ""⟩ =
      generate_filename ⟨"Әлфия", "", "Композитор А", "", ""⟩ :=
  C6_namer_deterministic ⟨"Әлфия", "", "Композитор А", "", ""⟩
    ⟨"Әлфия", "", "Композитор А", "", ""⟩ rfl

/-- C7: for composer "Радик", empty lyricist and title "Сагыну" the
naming pipeline produces exactly "radik_-_saginu.md". -/
theorem C7_radik_saginu :
    generate_filename ⟨"Сагыну", "", "Радик", "", ""⟩ = "radik_-_saginu.md" := by
  decide

/-- C8: every failure path of the per-record processing step (fetch
failure, empty extracted lyrics, artifact write failure) changes only
the status field — the resulting record equals the input record with
status replaced by `failed`, so lyrics and filename are populated only
on the transition into `processed`. -/
theorem C8_failed_frame
    (r : Song) (fetched : Option SongData) (writeOk : Bool) (now : Nat)
    (hf : (process_one r fetched writeOk now).status = Status.failed) :
    process_one r fetched writeOk now = { r with status := Status.failed } := by
  cases fetched with
  | none => rfl
  | some d =>
    by_cases hl : d.lyrics = ""
    · simp [process_one, markFailed, hl]
    · cases writeOk with
      | true => simp [process_one, markProcessed, hl] at hf
      | false => simp [process_one, markFailed, hl]

/-- C8 (witness). -/
theorem C8_witness :
    process_one (mkSong ⟨"u", "T", "M", "S"⟩ 1 0) none true 5 =
      { mkSong ⟨"u", "T", "M", "S"⟩ 1 0 with status := Status.failed } :=
  C8_failed_frame (mkSong ⟨"u", "T", "M", "S"⟩ 1 0) none true 5 (by decide)

/-- C10: in test mode the Processor selects at most 100 records, all of
them pending, and the caller-supplied limit is ignored — the selection
is identical for any two limit values. -/
theorem C10_test_mode (db : List Song) (lim lim2 : Option Nat)
    (shuffle : List Song → List Song)
    (hperm : ∀ l, (shuffle l).Perm l) :
    (select_pending db lim true shuffle).length ≤ 100 ∧
    select_pending db lim true shuffle = select_pending db lim2 true shuffle ∧
    ∀ s ∈ select_pending db lim true shuffle, s.status = Status.pending := by
  refine ⟨?_, rfl, ?_⟩
  · have he : select_pending db lim true shuffle =
        (shuffle (db.filter (fun s => decide (s.status = Status.pending)))).take 100 := rfl
    rw [he, List.length_take]
    exact Nat.min_le_left _ _
  · intro s hs
    have hs2 : s ∈ shuffle (db.filter (fun s => decide (s.status = Status.pending))) :=
      List.mem_of_mem_take hs
    have hs3 : s ∈ db.filter (fun s => decide (s.status = Status.pending)) :=
      ((hperm _).mem_iff).mp hs2
    have := (List.mem_filter.mp hs3).2
    exact of_decide_eq_true this

/-- C10 (witness). -/
theorem C10_witness :
    (select_pending [] none true id).length ≤ 100 :=
  (C10_test_mode [] none (some 5) id (fun l => List.Perm.refl l)).1

/- ### Discovery idempotence (C5) -/

theorem containsUrl_insert_mono (db : List Song) (e : ListingEntry) (now : Nat)
    (u : String) (h : containsUrl db u = true) :
    containsUrl (insert_or_ignore db e now) u = true := by
  unfold insert_or_ignore
  split
  · exact h
  · unfold containsUrl at h ⊢
    simp [List.any_append]
    left
    simpa [containsUrl] using h

theorem containsUrl_insert_self (db : List Song) (e : ListingEntry) (now : Nat) :
    containsUrl (insert_or_ignore db e now) e.url = true := by
  unfold insert_or_ignore
  split
  · assumption
  · simp [containsUrl, List.any_append, mkSong]

theorem insert_or_ignore_skip (db : List Song) (e : ListingEntry) (now : Nat)
    (h : containsUrl db e.url = true) :
    insert_or_ignore db e now = db := by
  unfold insert_or_ignore
  simp [h]

theorem containsUrl_upsert_mono (es : List ListingEntry) :
    ∀ (db : List Song) (now : Nat) (u : String), containsUrl db u = true →
      containsUrl (upsert_discovered db es now) u = true := by
  induction es with
  | nil => intro db now u h; exact h
  | cons e es ih =>
    intro db now u h
    exact ih (insert_or_ignore db e now) now u (containsUrl_insert_mono db e now u h)

theorem upsert_covers (es : List ListingEntry) :
    ∀ (db : List Song) (now : Nat), ∀ e ∈ es,
      containsUrl (upsert_discovered db es now) e.url = true := by
  induction es with
  | nil => intro db now e he; cases he
  | cons a es ih =>
    intro db now e he
    cases he with
    | head =>
      exact containsUrl_upsert_mono es (insert_or_ignore db a now) now a.url
        (containsUrl_insert_self db a now)
    | tail _ hmem => exact ih (insert_or_ignore db a now) now e hmem

theorem upsert_noop (es : List ListingEntry) :
    ∀ (db : List Song) (now : Nat), (∀ e ∈ es, containsUrl db e.url = true) →
      upsert_discovered db es now = db := by
  induction es with
  | nil => intro db now _; rfl
  | cons a es ih =>
    intro db now h
    have ha := h a (List.mem_cons_self a es)
    show upsert_discovered (insert_or_ignore db a now) es now = db
    rw [insert_or_ignore_skip db a now ha]
    exact ih db now (fun e he => h e (List.mem_cons_of_mem a he))

/-- C5: discovery is idempotent — upserting the same listing a second
time (at any later timestamp) returns the store unchanged, so the record
count and every stored field of every record are untouched. -/
theorem C5_upsert_idempotent (db : List Song) (es : List ListingEntry)
    (now now2 : Nat) :
    upsert_discovered (upsert_discovered db es now) es now2 =
      upsert_discovered db es now :=
  upsert_noop es (upsert_discovered db es now) now2
    (fun e he => upsert_covers es db now e he)

/- ### Orchestrator stop conditions (C9) -/

theorem process_batch_meets_spec (env : Nat → Nat) (out : Nat → BatchOutcome)
    (mb : Option Nat) :
    ∀ (fuel k : Nat), BatchSpec env out mb k (process_batch env out mb fuel k) := by
  intro fuel
  induction fuel with
  | zero =>
    intro k
    have hR : process_batch env out mb 0 k = ⟨k, k, k, StopReason.fuelOut⟩ := rfl
    rw [BatchSpec, hR]
    refine ⟨Nat.le_refl k, rfl,
      fun i h1 h2 => absurd h2 (Nat.not_lt.mpr h1), ?_, ?_, ?_, ?_⟩ <;>
      intro h <;> simp_all
  | succ fuel ih =>
    intro k
    by_cases hc : capHit mb k = true
    · have hR : process_batch env out mb (fuel + 1) k = ⟨k, k, k, StopReason.capReached⟩ := by
        simp [process_batch, hc]
      rw [BatchSpec, hR]
      refine ⟨Nat.le_refl k, rfl,
        fun i h1 h2 => absurd h2 (Nat.not_lt.mpr h1), ?_, ?_, ?_, ?_⟩ <;>
        intro h <;> simp_all
    · by_cases he : env k = 0
      · have hR : process_batch env out mb (fuel + 1) k = ⟨k, k, k, StopReason.noPending⟩ := by
          simp [process_batch, hc, he]
        rw [BatchSpec, hR]
        refine ⟨Nat.le_refl k, rfl,
          fun i h1 h2 => absurd h2 (Nat.not_lt.mpr h1), ?_, ?_, ?_, ?_⟩ <;>
          intro h <;> simp_all
      · cases ho : out k with
        | success =>
          have hR : process_batch env out mb (fuel + 1) k =
              process_batch env out mb fuel (k + 1) := by
            simp [process_batch, hc, he, ho]
          rw [BatchSpec, hR]
          obtain ⟨h1, h2, h3, h4, h5, h6, h7⟩ := ih (k + 1)
          refine ⟨Nat.le_of_succ_le h1, h2, ?_, h4, h5, h6, h7⟩
          intro i hki his
          rcases Nat.lt_or_ge i (k + 1) with hlt | hge
          · have hik : i = k := Nat.le_antisymm (Nat.lt_succ_iff.mp hlt) hki
            subst hik
            exact ⟨ho, he, Bool.eq_false_iff.mpr hc⟩
          · exact h3 i hge his
        | failExit =>
          have hR : process_batch env out mb (fuel + 1) k =
              ⟨k, k + 1, k, StopReason.batchFailed⟩ := by
            simp [process_batch, hc, he, ho]
          rw [BatchSpec, hR]
          refine ⟨Nat.le_refl k, rfl,
            fun i h1 h2 => absurd h2 (Nat.not_lt.mpr h1), ?_, ?_, ?_, ?_⟩ <;>
            intro h <;> simp_all
        | timeout =>
          have hR : process_batch env out mb (fuel + 1) k =
              ⟨k, k + 1, k, StopReason.batchTimeout⟩ := by
            simp [process_batch, hc, he, ho]
          rw [BatchSpec, hR]
          refine ⟨Nat.le_refl k, rfl,
            fun i h1 h2 => absurd h2 (Nat.not_lt.mpr h1), ?_, ?_, ?_, ?_⟩ <;>
            intro h <;> simp_all

/-- C9: a run of the orchestrator loop stops exactly on the four
conditions — cap reached, zero pending, non-zero exit, timeout — with
every earlier invoked batch having succeeded (so a failed or timed-out
batch is never retried: it is the single final invocation) and one fixed
inter-batch sleep per successful batch. -/
theorem C9_orchestrator_stops (env : Nat → Nat) (out : Nat → BatchOutcome)
    (mb : Option Nat) (fuel : Nat) :
    BatchSpec env out mb 0 (process_batch env out mb fuel 0) :=
  process_batch_meets_spec env out mb fuel 0

/-- C9 (witness): a concrete run whose first batch exits non-zero. -/
theorem C9_witness :
    BatchSpec (fun _ => 1) (fun _ => BatchOutcome.failExit) none 0
      (process_batch (fun _ => 1) (fun _ => BatchOutcome.failExit) none 5 0) :=
  C9_orchestrator_stops (fun _ => 1) (fun _ => BatchOutcome.failExit) none 5

end TatSongs
